import Mathlib

/-!
Verification development for the easy-rpc core (src/lib.rs).

The development is a shallow embedding of the session / wire-format layer of
the library.  Byte sequences are `List Nat` (every encoder below only emits
values below 256).  Rust strings appear as their UTF-8 byte sequences.
Machine integers are `Nat` with explicit reduction modulo 2^32 where the Rust
code uses `u32` arithmetic.

The MessagePack primitives model exactly the functions of the `rmp` / `rmpv`
crates that lib.rs calls:
  rmp::encode::write_array_len, write_u32, write_str, write_nil,
  rmp::decode::read_array_len, read_int::<u32>,
  rmpv::decode::read_value (restricted to the scalar and string values;
  any other marker makes the reader fail, which at every call site of
  lib.rs ends in the same unwrap panic that the full reader would reach
  through parse_method or Value::as_str).
-/

namespace EasyRpc

/-! ## MessagePack encoding primitives (the rmp crate, as called by lib.rs) -/

/-- rmp `encode::write_array_len`: fixarray marker for lengths below 16,
array16 / array32 otherwise.  lib.rs only ever writes lengths 3 and 4. -/
def writeArrayLen (n : Nat) : List Nat :=
  if n < 16 then [0x90 + n]
  else if n < 65536 then [0xdc, n / 256 % 256, n % 256]
  else [0xdd, n / 16777216 % 256, n / 65536 % 256, n / 256 % 256, n % 256]

/-- rmp `encode::write_u32`: always the five byte sequence marker 0xce followed
by the four big-endian data bytes, even for values that would fit a positive
fixnum.  This is the encoder lib.rs uses for the packet type tag, the request
and response ids and an integer `Method`. -/
def writeU32 (v : Nat) : List Nat :=
  let w := v % 4294967296
  [0xce, w / 16777216, w / 65536 % 256, w / 256 % 256, w % 256]

/-- rmp `encode::write_nil`: the single marker byte 0xc0. -/
def writeNil : List Nat := [0xc0]

/-- rmp `encode::write_str` on a UTF-8 byte sequence: minimal string header
(fixstr, str8, str16 or str32) followed by the bytes. -/
def writeStr (s : List Nat) : List Nat :=
  (if s.length < 32 then [0xa0 + s.length]
   else if s.length < 256 then [0xd9, s.length]
   else if s.length < 65536 then [0xda, s.length / 256, s.length % 256]
   else [0xdb, s.length / 16777216 % 256, s.length / 65536 % 256,
         s.length / 256 % 256, s.length % 256]) ++ s

/-- MessagePack minimum-width unsigned integer encoding (positive fixint, then
uint8 / uint16 / uint32 / uint64).  The spec asserts the packet headers use
this encoding; the code does not (it calls `write_u32`, see `writeU32`).
This definition follows the words of the spec and exists only to be compared
against the encoders above. -/
def writeUintMin (n : Nat) : List Nat :=
  if n < 128 then [n]
  else if n < 256 then [0xcc, n]
  else if n < 65536 then [0xcd, n / 256, n % 256]
  else if n < 4294967296 then [0xce, n / 16777216, n / 65536 % 256, n / 256 % 256, n % 256]
  else [0xcf, n / 72057594037927936 % 256, n / 281474976710656 % 256,
        n / 1099511627776 % 256, n / 4294967296 % 256,
        n / 16777216 % 256, n / 65536 % 256, n / 256 % 256, n % 256]

/-! ## MessagePack decoding primitives -/

/-- The fragment of `rmpv::Value` that the scalar/string reader below produces. -/
inductive MpValue where
  | nil
  | bool (b : Bool)
  | int (n : Nat)
  | str (s : List Nat)
deriving DecidableEq

/-- rmp `decode::read_array_len`: fixarray, array16 or array32 marker. -/
def readArrayLen : List Nat → Option (Nat × List Nat)
  | [] => none
  | b :: r =>
    if 0x90 ≤ b ∧ b ≤ 0x9f then some (b - 0x90, r)
    else if b = 0xdc then
      match r with
      | n1 :: n0 :: r2 => some (n1 * 256 + n0, r2)
      | _ => none
    else if b = 0xdd then
      match r with
      | n3 :: n2 :: n1 :: n0 :: r2 => some (((n3 * 256 + n2) * 256 + n1) * 256 + n0, r2)
      | _ => none
    else none

/-- rmp `decode::read_int::<u32>`: any unsigned integer marker whose value fits
a `u32`.  Negative and non-integer markers are a `TypeMismatch` error
(modelled as `none`). -/
def readIntU32 : List Nat → Option (Nat × List Nat)
  | [] => none
  | b :: r =>
    if b ≤ 0x7f then some (b, r)
    else if b = 0xcc then
      match r with
      | b0 :: r2 => some (b0, r2)
      | _ => none
    else if b = 0xcd then
      match r with
      | b1 :: b0 :: r2 => some (b1 * 256 + b0, r2)
      | _ => none
    else if b = 0xce then
      match r with
      | b3 :: b2 :: b1 :: b0 :: r2 => some (((b3 * 256 + b2) * 256 + b1) * 256 + b0, r2)
      | _ => none
    else if b = 0xcf then
      match r with
      | b7 :: b6 :: b5 :: b4 :: b3 :: b2 :: b1 :: b0 :: r2 =>
        let v := ((((((b7 * 256 + b6) * 256 + b5) * 256 + b4) * 256 + b3) * 256 + b2)
                    * 256 + b1) * 256 + b0
        if v < 4294967296 then some (v, r2) else none
      | _ => none
    else none

/-- rmpv `decode::read_value`, restricted to nil, booleans, unsigned integers
and strings.  lib.rs feeds the result either to `parse_method` or to the
`is_nil` / `as_str` pair on the response error field; on every value outside
this fragment those call sites unwrap a `None` and panic, exactly as the
reader itself failing does in this model. -/
def readValue : List Nat → Option (MpValue × List Nat)
  | [] => none
  | b :: r =>
    if b = 0xc0 then some (.nil, r)
    else if b = 0xc2 then some (.bool false, r)
    else if b = 0xc3 then some (.bool true, r)
    else if b ≤ 0x7f then some (.int b, r)
    else if b = 0xcc then
      match r with
      | b0 :: r2 => some (.int b0, r2)
      | _ => none
    else if b = 0xcd then
      match r with
      | b1 :: b0 :: r2 => some (.int (b1 * 256 + b0), r2)
      | _ => none
    else if b = 0xce then
      match r with
      | b3 :: b2 :: b1 :: b0 :: r2 =>
        some (.int (((b3 * 256 + b2) * 256 + b1) * 256 + b0), r2)
      | _ => none
    else if b = 0xcf then
      match r with
      | b7 :: b6 :: b5 :: b4 :: b3 :: b2 :: b1 :: b0 :: r2 =>
        some (.int (((((((b7 * 256 + b6) * 256 + b5) * 256 + b4) * 256 + b3) * 256 + b2)
                       * 256 + b1) * 256 + b0), r2)
      | _ => none
    else if 0xa0 ≤ b ∧ b ≤ 0xbf then
      let n := b - 0xa0
      if r.length < n then none else some (.str (r.take n), r.drop n)
    else if b = 0xd9 then
      match r with
      | n0 :: r2 => if r2.length < n0 then none else some (.str (r2.take n0), r2.drop n0)
      | _ => none
    else if b = 0xda then
      match r with
      | n1 :: n0 :: r2 =>
        let n := n1 * 256 + n0
        if r2.length < n then none else some (.str (r2.take n), r2.drop n)
      | _ => none
    else if b = 0xdb then
      match r with
      | n3 :: n2 :: n1 :: n0 :: r2 =>
        let n := ((n3 * 256 + n2) * 256 + n1) * 256 + n0
        if r2.length < n then none else some (.str (r2.take n), r2.drop n)
      | _ => none
    else none

/-- Decides whether a byte sequence is valid UTF-8 (the check behind
`str::from_utf8`, which `Utf8String::as_str` in rmpv performs). -/
def validUtf8 : List Nat → Bool
  | [] => true
  | b :: r =>
    if b ≤ 0x7f then validUtf8 r
    else if 0xc2 ≤ b ∧ b ≤ 0xdf then
      match r with
      | c1 :: r2 => if 0x80 ≤ c1 ∧ c1 ≤ 0xbf then validUtf8 r2 else false
      | _ => false
    else if b = 0xe0 then
      match r with
      | c1 :: c2 :: r2 =>
        if (0xa0 ≤ c1 ∧ c1 ≤ 0xbf) ∧ (0x80 ≤ c2 ∧ c2 ≤ 0xbf) then validUtf8 r2 else false
      | _ => false
    else if (0xe1 ≤ b ∧ b ≤ 0xec) ∨ b = 0xee ∨ b = 0xef then
      match r with
      | c1 :: c2 :: r2 =>
        if (0x80 ≤ c1 ∧ c1 ≤ 0xbf) ∧ (0x80 ≤ c2 ∧ c2 ≤ 0xbf) then validUtf8 r2 else false
      | _ => false
    else if b = 0xed then
      match r with
      | c1 :: c2 :: r2 =>
        if (0x80 ≤ c1 ∧ c1 ≤ 0x9f) ∧ (0x80 ≤ c2 ∧ c2 ≤ 0xbf) then validUtf8 r2 else false
      | _ => false
    else if b = 0xf0 then
      match r with
      | c1 :: c2 :: c3 :: r2 =>
        if (0x90 ≤ c1 ∧ c1 ≤ 0xbf) ∧ (0x80 ≤ c2 ∧ c2 ≤ 0xbf) ∧ (0x80 ≤ c3 ∧ c3 ≤ 0xbf)
        then validUtf8 r2 else false
      | _ => false
    else if 0xf1 ≤ b ∧ b ≤ 0xf3 then
      match r with
      | c1 :: c2 :: c3 :: r2 =>
        if (0x80 ≤ c1 ∧ c1 ≤ 0xbf) ∧ (0x80 ≤ c2 ∧ c2 ≤ 0xbf) ∧ (0x80 ≤ c3 ∧ c3 ≤ 0xbf)
        then validUtf8 r2 else false
      | _ => false
    else if b = 0xf4 then
      match r with
      | c1 :: c2 :: c3 :: r2 =>
        if (0x80 ≤ c1 ∧ c1 ≤ 0x8f) ∧ (0x80 ≤ c2 ∧ c2 ≤ 0xbf) ∧ (0x80 ≤ c3 ∧ c3 ≤ 0xbf)
        then validUtf8 r2 else false
      | _ => false
    else false

/-! ## The wire data model of lib.rs -/

/-- lib.rs `Method`: an unsigned 32-bit integer tag or a string (here its
UTF-8 bytes). -/
inductive Method where
  | int (n : Nat)
  | str (s : List Nat)
deriving DecidableEq

/-- lib.rs `Method::serialize` (lines 259-266): an integer method is written
with `encode::write_u32`, a string method with `encode::write_str`. -/
def Method.serialize : Method → List Nat
  | .int i => writeU32 i
  | .str s => writeStr s

/-- The `rmpv::Value` a well-formed method deserializes to. -/
def Method.toValue : Method → MpValue
  | .int i => .int i
  | .str s => .str s

/-- Side conditions under which `Method.serialize` round-trips: an integer
method must fit a `u32` (the Rust type enforces this) and a string method must
be valid UTF-8 of `u32`-addressable length (Rust `&str` enforces this). -/
def Method.wf : Method → Bool
  | .int i => decide (i < 4294967296)
  | .str s => validUtf8 s && decide (s.length < 4294967296)

/-- lib.rs `Session::parse_method` (lines 327-334): an integer value becomes
`Method::Int` (via `as_u64` and a truncating cast to `u32`), a string value
becomes `Method::Str` provided it is valid UTF-8 (`as_str` unwraps), any other
value is `None`. -/
def parse_method : MpValue → Option Method
  | .int n => some (.int (n % 4294967296))
  | .str s => if validUtf8 s then some (.str s) else none
  | _ => none

/-- lib.rs `Session::prepare_request` framing (lines 431-439) for a given
request id: `[ array_len 4, u32 0, u32 id, method ]`.  In the source the id is
drawn from the atomic counter inside the same function; the allocation is
modelled separately by `next_id` below. -/
def prepare_request (reqId : Nat) (m : Method) : List Nat :=
  writeArrayLen 4 ++ writeU32 0 ++ writeU32 reqId ++ Method.serialize m

/-- lib.rs `Session::prepare_notify` (lines 484-490):
`[ array_len 3, u32 2, method ]`. -/
def prepare_notify (m : Method) : List Nat :=
  writeArrayLen 3 ++ writeU32 2 ++ Method.serialize m

/-- lib.rs `Session::prepare_response` (lines 492-498):
`[ array_len 4, u32 1, u32 id ]`. -/
def prepare_response (reqId : Nat) : List Nat :=
  writeArrayLen 4 ++ writeU32 1 ++ writeU32 reqId

/-- A success response frame as built by `Session::response` (lines 456-461)
and `Ret::ret_raw` (lines 174-181): the response header, a nil error field,
then the payload bytes (either freshly serialized or spliced verbatim). -/
def response_pack (reqId : Nat) (payload : List Nat) : List Nat :=
  prepare_response reqId ++ writeNil ++ payload

/-- An error response frame as built by `Session::response_error`
(lines 463-468): the response header, the error string, then a nil result. -/
def response_error_pack (reqId : Nat) (err : List Nat) : List Nat :=
  prepare_response reqId ++ writeStr err ++ writeNil

/-- A full request frame: header plus payload bytes, as assembled by
`Session::request` (serializer output) and `Session::request_transfer`
(verbatim splice), lines 443-447 and 471-475. -/
def request_pack (reqId : Nat) (m : Method) (payload : List Nat) : List Nat :=
  prepare_request reqId m ++ payload

/-- A full notify frame (`Session::notify` / `Session::notify_transfer`,
lines 450-454 and 478-482). -/
def notify_pack (m : Method) (payload : List Nat) : List Nat :=
  prepare_notify m ++ payload

/-- `AsyncRet::error` (lines 200-202) simply calls `Session::response_error`
with its stored request id, so it emits exactly an error response frame. -/
def asyncRet_error (reqId : Nat) (err : List Nat) : List Nat :=
  response_error_pack reqId err

/-- The pretty Debug rendering Rust produces for a `&str` containing no
character that needs escaping: the byte sequence surrounded by double quotes.
This is what the blanket `impl From<T : Debug> for HandleError`
(lib.rs 233-235) stores when a handler converts a string literal into a
`HandleError`. -/
def debug_fmt_str (s : List Nat) : List Nat := 0x22 :: (s ++ [0x22])

/-! ## Session state and id allocation -/

/-- The mutable portion of lib.rs `Session` that the embedded operations
touch: the atomic id counter and the pending-reply table `sender_table`
(request id to an abstract one-shot sender, represented by a token). -/
structure SessionState where
  idCounter : Nat
  pending : List (Nat × Nat)
deriving DecidableEq

/-- `Session::new` (lines 312-319): counter starts at 1, table empty. -/
def SessionState.init : SessionState := ⟨1, []⟩

/-- `Session::next_id` (lines 408-410): `fetch_add(1)` on the `AtomicU32`
counter — returns the current value, stores the wrapping successor. -/
def next_id (st : SessionState) : Nat × SessionState :=
  (st.idCounter, { st with idCounter := (st.idCounter + 1) % 4294967296 })

/-- The session state after `k` id allocations starting from a fresh session. -/
def stateAfterAllocs : Nat → SessionState
  | 0 => SessionState.init
  | k + 1 => (next_id (stateAfterAllocs k)).2

/-- The id returned by allocation number `k` (zero-based) of a fresh session. -/
def nth_alloc (k : Nat) : Nat := (next_id (stateAfterAllocs k)).1

/-- `HashMap::remove` style lookup on the pending table. -/
def lookupPending : List (Nat × Nat) → Nat → Option Nat
  | [], _ => none
  | (k, s) :: r, id => if k = id then some s else lookupPending r id

/-- Removal of the entry for a key from the pending table (keys are unique,
as in the `HashMap` of the source). -/
def removePending : List (Nat × Nat) → Nat → List (Nat × Nat)
  | [], _ => []
  | (k, s) :: r, id => if k = id then r else (k, s) :: removePending r id

/-! ## Handler-side view and the Ret reply handle -/

/-- lib.rs `Arg` (lines 127-131): the decoded method, the request id (0 for a
notification) and the undecoded payload bytes. -/
structure Arg where
  method : Method
  id : Nat
  bytes : List Nat

/-- How a handler uses the single-use `Ret` it is given.  The Rust `Ret` is
consumed by value, so at most one of these operations happens per invocation:
`keep` leaves it untouched, `reply` / `replyRaw` are the two success paths
(`FnOnce` call / `ret_raw`), `replyError` is `Ret::error`. -/
inductive RetUse where
  | keep
  | reply (payload : List Nat)
  | replyRaw (msgpack : List Nat)
  | replyError (msg : List Nat)
deriving DecidableEq

/-- The handler result: `Ok(())` or `Err(HandleError(e))` with the contained
string as bytes. -/
inductive HRes where
  | ok
  | err (e : List Nat)
deriving DecidableEq

/-- A `Service::handle` implementation, abstracted to the two things the
session can observe from it: the use it makes of its `Ret` and its returned
`Result`. -/
def Handler : Type := Arg → RetUse × HRes

/-- The effect of a `Ret` use on the shared `req_id` wrapper (lib.rs 146-181):
every reply path first `take`s the optional id and does nothing when it is
already spent; an armed reply sends exactly one response frame and spends the
id. -/
def retApply (u : RetUse) (reqId : Option Nat) : List (List Nat) × Option Nat :=
  match reqId with
  | none => ([], none)
  | some id =>
    match u with
    | .keep => ([], some id)
    | .reply p => ([response_pack id p], none)
    | .replyRaw b => ([response_pack id b], none)
    | .replyError m => ([response_error_pack id m], none)

/-- lib.rs `Response` (lines 100-103): a success `Data` slot owning the whole
received frame plus the byte offset of the result payload, or an `Error`
string. -/
inductive Response where
  | data (frame : List Nat) (offset : Nat)
  | error (s : List Nat)
deriving DecidableEq

/-- Everything observable from one `Session::handle_packet` call: the frames
handed to `Adaptor::send`, the pending table afterwards, the responses routed
into rendezvous channels, and — when a decode step unwraps, an assertion
fails or the type tag is unknown — the panic that aborts the call (`some`
holds the panic message; the other fields then reflect the state at the panic
point). -/
structure HPResult where
  sent : List (List Nat)
  pending : List (Nat × Nat)
  delivered : List (Nat × Response)
  panicMsg : Option String
deriving DecidableEq

/-- lib.rs `Session::handle_packet` (lines 345-391).  Reads the array length
and the type tag, then dispatches:
type 0 (Request, asserted length 4) reads the id and the method, runs the
service with an armed `Ret`, and on `Err(e)` unconditionally sends an error
response for the id (line 362) — even when the `Ret` was already consumed;
type 1 (Response, asserted length 4) reads the id and the error value, drops
the frame silently when the id is not pending, otherwise removes the entry and
delivers `Response::Data(frame, offset)` on a nil error or `Response::Error`
on a string error;
type 2 (Notify, asserted length 3) reads the method and runs the service with
a spent `Ret`, discarding the result;
anything else panics with "Invalid PackType". -/
def handle_packet (h : Handler) (pending : List (Nat × Nat)) (pack : List Nat) : HPResult :=
  match readArrayLen pack with
  | none => ⟨[], pending, [], some "unwrap failed: read_array_len"⟩
  | some (len, r1) =>
    match readIntU32 r1 with
    | none => ⟨[], pending, [], some "unwrap failed: read_int pack_type"⟩
    | some (ptype, r2) =>
      if ptype = 0 then
        if len ≠ 4 then ⟨[], pending, [], some "assertion failed: len == 4"⟩
        else
          match readIntU32 r2 with
          | none => ⟨[], pending, [], some "unwrap failed: read_int req_id"⟩
          | some (reqId, r3) =>
            match readValue r3 with
            | none => ⟨[], pending, [], some "unwrap failed: read_value method"⟩
            | some (mv, r4) =>
              match parse_method mv with
              | none => ⟨[], pending, [], some "unwrap failed: parse_method"⟩
              | some m =>
                let hr := h ⟨m, reqId, r4⟩
                let ra := retApply hr.1 (some reqId)
                match hr.2 with
                | .err e =>
                  ⟨ra.1 ++ [response_error_pack reqId e], pending, [], none⟩
                | .ok => ⟨ra.1, pending, [], none⟩
      else if ptype = 1 then
        if len ≠ 4 then ⟨[], pending, [], some "assertion failed: len == 4"⟩
        else
          match readIntU32 r2 with
          | none => ⟨[], pending, [], some "unwrap failed: read_int req_id"⟩
          | some (reqId, r3) =>
            match readValue r3 with
            | none => ⟨[], pending, [], some "unwrap failed: read_value error"⟩
            | some (ev, r4) =>
              match lookupPending pending reqId with
              | none => ⟨[], pending, [], none⟩
              | some slot =>
                let pending1 := removePending pending reqId
                if ev = .nil then
                  ⟨[], pending1, [(slot, .data pack (pack.length - r4.length))], none⟩
                else
                  match ev with
                  | .str s =>
                    if validUtf8 s then ⟨[], pending1, [(slot, .error s)], none⟩
                    else ⟨[], pending1, [], some "unwrap failed: error as_str"⟩
                  | _ => ⟨[], pending1, [], some "unwrap failed: error as_str"⟩
      else if ptype = 2 then
        if len ≠ 3 then ⟨[], pending, [], some "assertion failed: len == 3"⟩
        else
          match readValue r2 with
          | none => ⟨[], pending, [], some "unwrap failed: read_value method"⟩
          | some (mv, r3) =>
            match parse_method mv with
            | none => ⟨[], pending, [], some "unwrap failed: parse_method"⟩
            | some m =>
              let hr := h ⟨m, 0, r3⟩
              let ra := retApply hr.1 none
              ⟨ra.1, pending, [], none⟩
      else ⟨[], pending, [], some "Invalid PackType"⟩

/-- One `Session::recv_packet` outcome as `loop_handle` sees it. -/
inductive RecvResult where
  | ok (pack : List Nat)
  | noData
  | disconnected
  | mutexOccupied
deriving DecidableEq

/-- How a `loop_handle` run over a finite script of receive outcomes ends. -/
inductive LoopOutcome where
  | returned
  | panicked (msg : String)
  | outOfScript
deriving DecidableEq

/-- lib.rs `Session::loop_handle` (lines 394-402) driven by a finite script of
receive outcomes: `Disconnected` breaks the loop (the function returns),
`Ok(pack)` runs `handle_packet` — whose panic propagates out of the loop —
and every other outcome is ignored. -/
def loop_handle (h : Handler) (pending : List (Nat × Nat)) : List RecvResult → LoopOutcome
  | [] => .outOfScript
  | .disconnected :: _ => .returned
  | .ok pack :: rest =>
    let r := handle_packet h pending pack
    match r.panicMsg with
    | some m => .panicked m
    | none => loop_handle h r.pending rest
  | .noData :: rest => loop_handle h pending rest
  | .mutexOccupied :: rest => loop_handle h pending rest

/-! ## The request path -/

/-- The externally visible steps of `Session::request` in program order. -/
inductive Event where
  | allocId (id : Nat)
  | sendFrame (frame : List Nat)
  | createChannel
  | insertPending (id : Nat)
  | recvAttempt
deriving DecidableEq

/-- The event sequence of one `Session::request` call (lib.rs 443-447) up to
the first receive attempt: `prepare_request` allocates the id (line 433), the
argument is serialized into the frame, `send_pack` hands the frame to the
adaptor (line 446), and only then `wait_response` (lines 412-414) creates the
one-shot channel, inserts the sender into `sender_table` and enters its
receive loop. -/
def request_trace (st : SessionState) (m : Method) (payload : List Nat) : List Event :=
  let a := next_id st
  [ .allocId a.1,
    .sendFrame (request_pack a.1 m payload),
    .createChannel,
    .insertPending a.1,
    .recvAttempt ]

/-- The ordering property claimed by the spec for `request`: the insertion
into the pending table happens before the frame is handed to the transport. -/
def insert_before_send (tr : List Event) : Prop :=
  tr.findIdx (fun e => match e with | .insertPending _ => true | _ => false) <
    tr.findIdx (fun e => match e with | .sendFrame _ => true | _ => false)

/-- The frame `Session::request` (lines 443-447) sends from state `st`:
header with the freshly allocated id, then the serializer output for the
argument value. -/
def request_frame {α : Type} (st : SessionState) (m : Method) (encode : α → List Nat)
    (v : α) : List Nat :=
  request_pack (next_id st).1 m (encode v)

/-- The frame `Session::request_transfer` (lines 471-475) sends from state
`st`: the same header, then the caller-provided MessagePack bytes verbatim. -/
def request_transfer_frame (st : SessionState) (m : Method) (msgpack : List Nat) : List Nat :=
  request_pack (next_id st).1 m msgpack

/-- The spec-side variant of `prepare_request` in which every header integer
uses the minimum-width encoding (spec sections 4.2 and 6).  Exists only for
comparison with `prepare_request`. -/
def prepare_request_minwidth (reqId : Nat) (m : Method) : List Nat :=
  writeArrayLen 4 ++ writeUintMin 0 ++ writeUintMin reqId ++
    (match m with | .int i => writeUintMin i | .str s => writeStr s)

/-- The UTF-8 bytes of the string "No this method", the error the default
`Service::handle` (lines 289-293) builds directly — without Debug quoting —
and the doc-example fallback produces through `"No this method".into()` —
with Debug quoting. -/
def noThisMethodBytes : List Nat :=
  [0x4e, 0x6f, 0x20, 0x74, 0x68, 0x69, 0x73, 0x20, 0x6d, 0x65, 0x74, 0x68, 0x6f, 0x64]

/-- `EmptyService` (lines 297-298): the default `handle` body, which never
touches the `Ret` and returns `Err(HandleError("No this method"))`. -/
def emptyHandler : Handler := fun _ => (.keep, .err noThisMethodBytes)

/-- A handler that replies through its `Ret` and then still returns `Err`:
legal for any `Service` implementation, and the trigger for the double
response of `handle_packet` (line 362). -/
def replyThenErr : Handler := fun _ => (.reply [0x2a], .err [0x62, 0x6f, 0x6f, 0x6d])

/-- The doc-example fallback arm (lib.rs 23): a handler that leaves its `Ret`
armed and returns `Err("No this method".into())`, where the blanket
`From<T : Debug>` conversion stores the Debug-quoted form of the string. -/
def s2Handler : Handler := fun _ => (.keep, .err (debug_fmt_str noThisMethodBytes))

/-! ## Round-trip lemmas for the codec primitives -/

theorem readArrayLen_write3 (rest : List Nat) :
    readArrayLen (writeArrayLen 3 ++ rest) = some (3, rest) := rfl

theorem readArrayLen_write4 (rest : List Nat) :
    readArrayLen (writeArrayLen 4 ++ rest) = some (4, rest) := rfl

theorem readIntU32_writeU32 (v : Nat) (rest : List Nat) :
    readIntU32 (writeU32 v ++ rest) = some (v % 4294967296, rest) := by
  have h : ((v % 4294967296 / 16777216 * 256 + v % 4294967296 / 65536 % 256) * 256
      + v % 4294967296 / 256 % 256) * 256 + v % 4294967296 % 256 = v % 4294967296 := by
    omega
  simp [writeU32, readIntU32, h]

theorem readValue_writeU32 (v : Nat) (rest : List Nat) :
    readValue (writeU32 v ++ rest) = some (.int (v % 4294967296), rest) := by
  have h : ((v % 4294967296 / 16777216 * 256 + v % 4294967296 / 65536 % 256) * 256
      + v % 4294967296 / 256 % 256) * 256 + v % 4294967296 % 256 = v % 4294967296 := by
    omega
  simp [writeU32, readValue, h]

theorem readValue_writeNil (rest : List Nat) :
    readValue (writeNil ++ rest) = some (.nil, rest) := rfl

theorem readValue_fixstr (b : Nat) (r : List Nat) (hb : 0xa0 ≤ b ∧ b ≤ 0xbf)
    (hlen : b - 0xa0 ≤ r.length) :
    readValue (b :: r) = some (.str (r.take (b - 0xa0)), r.drop (b - 0xa0)) := by
  simp only [readValue]
  rw [if_neg (show ¬ b = 0xc0 by omega)]
  rw [if_neg (show ¬ b = 0xc2 by omega)]
  rw [if_neg (show ¬ b = 0xc3 by omega)]
  rw [if_neg (show ¬ b ≤ 0x7f by omega)]
  rw [if_neg (show ¬ b = 0xcc by omega)]
  rw [if_neg (show ¬ b = 0xcd by omega)]
  rw [if_neg (show ¬ b = 0xce by omega)]
  rw [if_neg (show ¬ b = 0xcf by omega)]
  rw [if_pos hb]
  rw [if_neg (show ¬ r.length < b - 0xa0 by omega)]

theorem readValue_writeStr (s rest : List Nat) (h : s.length < 4294967296) :
    readValue (writeStr s ++ rest) = some (.str s, rest) := by
  rcases Nat.lt_or_ge s.length 32 with h32 | h32
  · simp only [writeStr, if_pos h32, List.cons_append, List.nil_append]
    rw [readValue_fixstr (0xa0 + s.length) (s ++ rest) (by omega)
        (by simp only [List.length_append]; omega)]
    rw [show 0xa0 + s.length - 0xa0 = s.length by omega]
    rw [List.take_left, List.drop_left]
  · rcases Nat.lt_or_ge s.length 256 with h256 | h256
    · simp only [writeStr, if_neg (by omega : ¬ s.length < 32), if_pos h256,
        List.cons_append, List.nil_append, readValue]
      norm_num
    · rcases Nat.lt_or_ge s.length 65536 with h64k | h64k
      · simp only [writeStr, if_neg (by omega : ¬ s.length < 32),
          if_neg (by omega : ¬ s.length < 256), if_pos h64k,
          List.cons_append, List.nil_append, readValue]
        norm_num
        rw [show s.length / 256 * 256 + s.length % 256 = s.length by omega]
        exact ⟨Nat.le_add_right _ _, List.take_left s rest, List.drop_left s rest⟩
      · simp only [writeStr, if_neg (by omega : ¬ s.length < 32),
          if_neg (by omega : ¬ s.length < 256), if_neg (by omega : ¬ s.length < 65536),
          List.cons_append, List.nil_append, readValue]
        norm_num
        rw [show ((s.length / 16777216 % 256 * 256 + s.length / 65536 % 256) * 256
            + s.length / 256 % 256) * 256 + s.length % 256 = s.length by omega]
        exact ⟨Nat.le_add_right _ _, List.take_left s rest, List.drop_left s rest⟩

theorem readValue_serialize (m : Method) (rest : List Nat) (hm : Method.wf m = true) :
    readValue (Method.serialize m ++ rest) = some (Method.toValue m, rest) ∧
      parse_method (Method.toValue m) = some m := by
  cases m with
  | int i =>
    have hi : i < 4294967296 := by simpa [Method.wf] using hm
    constructor
    · rw [show Method.serialize (.int i) = writeU32 i from rfl, readValue_writeU32,
        Nat.mod_eq_of_lt hi]
      rfl
    · simp [parse_method, Method.toValue, Nat.mod_eq_of_lt hi]
  | str s =>
    have hs : validUtf8 s = true ∧ s.length < 4294967296 := by
      simpa [Method.wf, Bool.and_eq_true] using hm
    constructor
    · exact readValue_writeStr s rest hs.2
    · simp [parse_method, Method.toValue, hs.1]

/-! ## Dispatch lemmas -/

theorem handle_packet_request_err (h : Handler) (pending : List (Nat × Nat)) (reqId : Nat)
    (m : Method) (payload e : List Nat) (hid : reqId < 4294967296) (hm : Method.wf m = true)
    (he : (h ⟨m, reqId, payload⟩).2 = .err e) :
    handle_packet h pending (request_pack reqId m payload) =
      ⟨(retApply (h ⟨m, reqId, payload⟩).1 (some reqId)).1 ++ [response_error_pack reqId e],
        pending, [], none⟩ := by
  obtain ⟨hv, hp⟩ := readValue_serialize m payload hm
  have h1 : readArrayLen (request_pack reqId m payload)
      = some (4, writeU32 0 ++ (writeU32 reqId ++ (Method.serialize m ++ payload))) := by
    simp only [request_pack, prepare_request, List.append_assoc]
    exact readArrayLen_write4 _
  simp only [handle_packet, h1, readIntU32_writeU32, Nat.zero_mod, Nat.mod_eq_of_lt hid,
    hv, hp, he]
  norm_num

theorem handle_packet_response_error_pack (h : Handler) (pending : List (Nat × Nat))
    (slot reqId : Nat) (e : List Nat) (hid : reqId < 4294967296)
    (he : validUtf8 e = true) (hel : e.length < 4294967296)
    (hlook : lookupPending pending reqId = some slot) :
    handle_packet h pending (response_error_pack reqId e) =
      ⟨[], removePending pending reqId, [(slot, Response.error e)], none⟩ := by
  have h1 : readArrayLen (response_error_pack reqId e)
      = some (4, writeU32 1 ++ (writeU32 reqId ++ (writeStr e ++ writeNil))) := by
    simp only [response_error_pack, prepare_response, List.append_assoc]
    exact readArrayLen_write4 _
  have h4 := readValue_writeStr e writeNil hel
  simp only [handle_packet, h1, readIntU32_writeU32, Nat.mod_eq_of_lt hid, h4, hlook, he]
  norm_num
  intro hc
  simp at hc

theorem stateAfterAllocs_idCounter (k : Nat) :
    (stateAfterAllocs k).idCounter = (1 + k) % 4294967296 := by
  induction k with
  | zero => simp [stateAfterAllocs, SessionState.init]
  | succ k ih =>
    simp only [stateAfterAllocs, next_id, ih]
    omega

theorem nth_alloc_eq (k : Nat) : nth_alloc k = (1 + k) % 4294967296 := by
  simp only [nth_alloc, next_id]
  exact stateAfterAllocs_idCounter k

/-! ## The claims -/

/-- C2, as stated, is false on the code: in `Session::request` the frame is
handed to the transport (line 446) before `wait_response` registers the
sender in the pending table (line 414).  On a fresh session, the insert event
does not precede the send event. -/
theorem C2_counterexample :
    ¬ insert_before_send (request_trace SessionState.init (.int 1) [0x2a]) := by
  unfold insert_before_send
  decide

/-- C2 amended: in `request` the steps occur in the order allocate `req_id`,
send the encoded request frame, and only then — inside `wait_response`, but
before the first receive attempt — create the one-shot rendezvous and insert
the sender into `pending[req_id]`.  At the moment the frame is sent, `pending`
does not yet contain the entry; it does before any packet is pulled from the
transport. -/
theorem C2_request_order (st : SessionState) (m : Method) (p : List Nat) :
    request_trace st m p =
      [.allocId (next_id st).1, .sendFrame (request_pack (next_id st).1 m p),
       .createChannel, .insertPending (next_id st).1, .recvAttempt] ∧
    (request_trace st m p).findIdx
        (fun e => match e with | .sendFrame _ => true | _ => false) = 1 ∧
    (request_trace st m p).findIdx
        (fun e => match e with | .insertPending _ => true | _ => false) = 3 ∧
    (request_trace st m p).findIdx
        (fun e => match e with | .recvAttempt => true | _ => false) = 4 := by
  refine ⟨rfl, ?_, ?_, ?_⟩ <;> simp [request_trace, List.findIdx_cons]

/-- C4, as stated, is false on the code: the wrapping `fetch_add` counter
starts at 1, so allocation number 4294967295 (zero-based) returns id 0, and
the request frame built for that call carries id 0. -/
theorem C4_counterexample :
    nth_alloc 4294967295 = 0 ∧
    request_pack (nth_alloc 4294967295) (.int 1) [] = request_pack 0 (.int 1) [] := by
  have h : nth_alloc 4294967295 = 0 := by
    rw [nth_alloc_eq]
  exact ⟨h, by rw [h]⟩

/-- C4 amended: every id among the first `2^32 - 1` allocations of a session
is nonzero (allocation `k` returns `1 + k`); only at the wrap-around
allocation number `2^32 - 1` does the counter produce id 0. -/
theorem C4_nonzero_before_wrap (k : Nat) (hk : k < 4294967295) :
    nth_alloc k = 1 + k ∧ nth_alloc k ≠ 0 := by
  rw [nth_alloc_eq]
  omega

theorem C4_nonzero_before_wrap_witness :
    0 < 4294967295 ∧ (nth_alloc 0 = 1 + 0 ∧ nth_alloc 0 ≠ 0) :=
  ⟨by norm_num, C4_nonzero_before_wrap 0 (by norm_num)⟩

/-- C5, as stated, is false on the code: the packet headers are written with
`rmp::encode::write_u32`, which always emits the five-byte fixed-width
encoding (marker 0xce plus four big-endian bytes), not the minimum-width
encoding the spec describes.  Type tag 0 occupies five bytes, not one. -/
theorem C5_counterexample :
    prepare_request 1 (.int 2) ≠ prepare_request_minwidth 1 (.int 2) ∧
    writeU32 0 = [0xce, 0, 0, 0, 0] ∧ writeUintMin 0 = [0] ∧
    prepare_request 1 (.int 2) =
      [0x94, 0xce, 0, 0, 0, 0, 0xce, 0, 0, 0, 1, 0xce, 0, 0, 0, 2] ∧
    prepare_request_minwidth 1 (.int 2) = [0x94, 0, 1, 2] := by
  refine ⟨by decide, by decide, by decide, by decide, by decide⟩

/-- C5 amended: every integer written into a packet header — the type tag,
the request/response id and an integer `Method` — is encoded as a fixed-width
MessagePack u32: the marker 0xce followed by four big-endian bytes, five bytes
in total regardless of the value.  Only the array-length header uses the
one-byte fixarray form. -/
theorem C5_fixed_width_headers (reqId v : Nat) (m : Method) :
    prepare_request reqId m = writeArrayLen 4 ++ writeU32 0 ++ writeU32 reqId ++
      Method.serialize m ∧
    prepare_response reqId = writeArrayLen 4 ++ writeU32 1 ++ writeU32 reqId ∧
    prepare_notify m = writeArrayLen 3 ++ writeU32 2 ++ Method.serialize m ∧
    Method.serialize (.int v) = writeU32 v ∧
    (writeU32 v).length = 5 ∧ (writeU32 v).head? = some 0xce ∧
    writeArrayLen 4 = [0x94] ∧ writeArrayLen 3 = [0x93] :=
  ⟨rfl, rfl, rfl, rfl, rfl, rfl, rfl, rfl⟩

/-- C9 confirmed: from the same session state (hence the same allocated id),
`request_transfer` with the MessagePack encoding of a value produces a frame
byte-identical to `request` of that value — both splice the same payload
bytes after the same `prepare_request` header. -/
theorem C9_transfer_equivalence {α : Type} (encode : α → List Nat) (v : α)
    (st : SessionState) (m : Method) :
    request_transfer_frame st m (encode v) = request_frame st m encode v ∧
    request_frame st m encode v = request_pack (next_id st).1 m (encode v) :=
  ⟨rfl, rfl⟩

/-- C1: the code violates the claim.  A handler may legally consume its `Ret`
(which already sends the reply) and then still return `Err`; `handle_packet`
calls `response_error` unconditionally on `Err` (line 362), without checking
whether the `Ret` was consumed, so the session sends a second Response frame
for the same request id.  Here the request with id 7 gets both a data
response and an error response. -/
theorem C1_double_response :
    handle_packet replyThenErr [] (request_pack 7 (.int 1) [0x2a]) =
      ⟨[response_pack 7 [0x2a], response_error_pack 7 [0x62, 0x6f, 0x6f, 0x6d]],
        [], [], none⟩ ∧
    (handle_packet replyThenErr [] (request_pack 7 (.int 1) [0x2a])).sent.length = 2 := by
  refine ⟨by decide, by decide⟩

/-- C6, as stated, is false on the code: on an unknown type tag the session
does not close the transport, and `loop_handle` does not return — instead
`handle_packet` panics (`panic!("Invalid PackType")`, line 389) and the panic
propagates out of `loop_handle`. -/
theorem C6_counterexample :
    handle_packet emptyHandler [] [0x91, 0x03] = ⟨[], [], [], some "Invalid PackType"⟩ ∧
    loop_handle emptyHandler [] [.ok [0x91, 0x03]] = .panicked "Invalid PackType" ∧
    loop_handle emptyHandler [] [.ok [0x91, 0x03]] ≠ .returned := by
  refine ⟨by decide, by decide, by decide⟩

/-- C6 amended: a frame whose type tag is none of 0/1/2, or whose array
length does not match its tag (4 for Request and Response, 3 for Notify),
makes `handle_packet` panic — an assertion failure or the explicit
`panic!("Invalid PackType")` — with no frame sent, nothing delivered and the
pending table untouched; `loop_handle` then ends in that panic instead of
returning, and the transport is never closed (no `close` call exists in
`handle_packet` or `loop_handle`). -/
theorem C6_malformed_panics (h : Handler) (pending : List (Nat × Nat))
    (pack r1 r2 : List Nat) (len t : Nat) (script : List RecvResult)
    (h1 : readArrayLen pack = some (len, r1))
    (h2 : readIntU32 r1 = some (t, r2))
    (hbad : (¬(t = 0 ∨ t = 1 ∨ t = 2)) ∨ (t = 0 ∧ len ≠ 4) ∨ (t = 1 ∧ len ≠ 4) ∨
      (t = 2 ∧ len ≠ 3)) :
    (handle_packet h pending pack).sent = [] ∧
    (handle_packet h pending pack).delivered = [] ∧
    (handle_packet h pending pack).pending = pending ∧
    (handle_packet h pending pack).panicMsg.isSome = true ∧
    loop_handle h pending (.ok pack :: script)
        = .panicked ((handle_packet h pending pack).panicMsg.getD "") ∧
    loop_handle h pending (.ok pack :: script) ≠ .returned := by
  have key : ∃ msg, handle_packet h pending pack = ⟨[], pending, [], some msg⟩ := by
    rcases hbad with ht | ⟨ht, hl⟩ | ⟨ht, hl⟩ | ⟨ht, hl⟩
    · push_neg at ht
      exact ⟨"Invalid PackType", by simp [handle_packet, h1, h2, ht.1, ht.2.1, ht.2.2]⟩
    · subst ht
      exact ⟨"assertion failed: len == 4", by simp [handle_packet, h1, h2, hl]⟩
    · subst ht
      exact ⟨"assertion failed: len == 4", by simp [handle_packet, h1, h2, hl]⟩
    · subst ht
      exact ⟨"assertion failed: len == 3", by simp [handle_packet, h1, h2, hl]⟩
  obtain ⟨msg, hkey⟩ := key
  refine ⟨?_, ?_, ?_, ?_, ?_, ?_⟩ <;> simp [loop_handle, hkey]

theorem C6_malformed_panics_witness :
    readArrayLen [0x91, 0x03] = some (1, [0x03]) ∧
    readIntU32 [0x03] = some (3, ([] : List Nat)) ∧
    ((handle_packet emptyHandler [] [0x91, 0x03]).sent = [] ∧
      (handle_packet emptyHandler [] [0x91, 0x03]).delivered = [] ∧
      (handle_packet emptyHandler [] [0x91, 0x03]).pending = [] ∧
      (handle_packet emptyHandler [] [0x91, 0x03]).panicMsg.isSome = true ∧
      loop_handle emptyHandler [] [.ok [0x91, 0x03]]
          = .panicked ((handle_packet emptyHandler [] [0x91, 0x03]).panicMsg.getD "") ∧
      loop_handle emptyHandler [] [.ok [0x91, 0x03]] ≠ .returned) :=
  ⟨by decide, by decide,
    C6_malformed_panics emptyHandler [] [0x91, 0x03] [0x03] [] 1 3 [] rfl rfl
      (Or.inl (by decide))⟩

/-- C7 confirmed: for an inbound Response frame (length 4, tag 1, id, error
value), an id absent from the pending table means the frame is silently
discarded with the table unchanged; a present id is removed, and the waiter
receives `Response::Data` of the whole frame plus the result payload offset
when the error value is nil, and `Response::Error` of the string otherwise. -/
theorem C7_response_dispatch (h : Handler) (pending : List (Nat × Nat))
    (pack : List Nat) {r1 r2 r3 r4 : List Nat} (id : Nat) (v : MpValue)
    (h1 : readArrayLen pack = some (4, r1))
    (h2 : readIntU32 r1 = some (1, r2))
    (h3 : readIntU32 r2 = some (id, r3))
    (h4 : readValue r3 = some (v, r4)) :
    (lookupPending pending id = none →
      handle_packet h pending pack = ⟨[], pending, [], none⟩) ∧
    (∀ slot, lookupPending pending id = some slot →
      (v = .nil →
        handle_packet h pending pack =
          ⟨[], removePending pending id,
            [(slot, .data pack (pack.length - r4.length))], none⟩) ∧
      (∀ s, v = .str s → validUtf8 s = true →
        handle_packet h pending pack =
          ⟨[], removePending pending id, [(slot, .error s)], none⟩)) := by
  constructor
  · intro hlook
    simp [handle_packet, h1, h2, h3, h4, hlook]
  · intro slot hlook
    constructor
    · intro hv
      subst hv
      simp [handle_packet, h1, h2, h3, h4, hlook]
    · intro s hv hvu
      subst hv
      simp [handle_packet, h1, h2, h3, h4, hlook, hvu]

theorem C7_response_dispatch_witness :
    handle_packet emptyHandler [(3, 8)] (response_pack 3 [0x2a]) =
      ⟨[], [], [(8, .data (response_pack 3 [0x2a]) 12)], none⟩ ∧
    handle_packet emptyHandler [(5, 9)] (response_pack 3 [0x2a]) =
      ⟨[], [(5, 9)], [], none⟩ :=
  ⟨((C7_response_dispatch emptyHandler [(3, 8)] (response_pack 3 [0x2a]) 3 MpValue.nil
      rfl rfl rfl rfl).2 8 rfl).1 rfl,
    (C7_response_dispatch emptyHandler [(5, 9)] (response_pack 3 [0x2a]) 3 MpValue.nil
      rfl rfl rfl rfl).1 rfl⟩

/-- C8 confirmed: a Notify frame (length 3, tag 2, parseable method) makes
the session send nothing, deliver nothing and leave the pending table alone:
the `Ret` handed to the handler is constructed spent (`req_id` absent), every
reply operation on a spent `Ret` is a no-op, and the handler result —
including `Err` — is discarded (line 374 drops it). -/
theorem C8_notify_silent (h : Handler) (pending : List (Nat × Nat))
    (pack : List Nat) {r1 r2 r3 : List Nat} (mv : MpValue) (m : Method)
    (h1 : readArrayLen pack = some (3, r1))
    (h2 : readIntU32 r1 = some (2, r2))
    (h3 : readValue r2 = some (mv, r3))
    (h4 : parse_method mv = some m) :
    (∀ u, retApply u none = ([], none)) ∧
    handle_packet h pending pack = ⟨[], pending, [], none⟩ := by
  constructor
  · intro u
    rfl
  · simp [handle_packet, h1, h2, h3, h4, retApply]

theorem C8_notify_silent_witness :
    readArrayLen (notify_pack (.int 5) [0xc0])
        = some (3, [0xce, 0, 0, 0, 2, 0xce, 0, 0, 0, 5, 0xc0]) ∧
    parse_method (MpValue.int 5) = some (.int 5) ∧
    ((∀ u, retApply u none = ([], none)) ∧
      handle_packet emptyHandler [(1, 1)] (notify_pack (.int 5) [0xc0])
        = ⟨[], [(1, 1)], [], none⟩) :=
  ⟨by decide, by decide,
    C8_notify_silent emptyHandler [(1, 1)] (notify_pack (.int 5) [0xc0])
      (MpValue.int 5) (.int 5) rfl rfl rfl rfl⟩

/-- C3, as stated, is false on the code in its S2 part: the doc-example
handler builds its error via the blanket `From<T : Debug>` conversion
(lib.rs 233-235), which stores the Debug rendering of the `&str` — the string
surrounded by double quotes.  The caller therefore observes
`Response::Error` of the quoted form, which is not equal to the bare
"No this method" the handler wrote. -/
theorem C3_counterexample :
    (handle_packet s2Handler [] (request_pack 9 (.str [0x6e, 0x6f, 0x70, 0x65]) [0xc0])).sent
        = [response_error_pack 9 (debug_fmt_str noThisMethodBytes)] ∧
    (handle_packet emptyHandler [(9, 5)]
        (response_error_pack 9 (debug_fmt_str noThisMethodBytes))).delivered
        = [(5, Response.error (debug_fmt_str noThisMethodBytes))] ∧
    debug_fmt_str noThisMethodBytes ≠ noThisMethodBytes := by
  refine ⟨by decide, by decide, by decide⟩

/-- C3 amended: when a handler returns `Err(e)` with the `Ret` still armed,
the session sends exactly one error Response whose error field is exactly the
string contained in the `HandleError` `e`, and the caller observes
`Response::Error` of exactly that string.  When the `HandleError` was built
through the blanket `From<T : Debug>` impl from a `&str` (as in scenario S2),
that contained string is the Debug-quoted form of the original, so the
observed string differs from the bare string the handler wrote. -/
theorem C3_error_roundtrip (h2 : Handler) (pending : List (Nat × Nat)) (slot reqId : Nat)
    (m : Method) (payload e : List Nat)
    (hid : reqId < 4294967296) (hm : Method.wf m = true)
    (he : validUtf8 e = true) (hel : e.length < 4294967296)
    (hlook : lookupPending pending reqId = some slot) :
    (handle_packet (fun _ => (.keep, .err e)) [] (request_pack reqId m payload)).sent
        = [response_error_pack reqId e] ∧
    (handle_packet h2 pending (response_error_pack reqId e)).delivered
        = [(slot, Response.error e)] := by
  constructor
  · rw [handle_packet_request_err (fun _ => (.keep, .err e)) [] reqId m payload e hid hm rfl]
    rfl
  · rw [handle_packet_response_error_pack h2 pending slot reqId e hid he hel hlook]

theorem C3_error_roundtrip_witness :
    validUtf8 [0x61] = true ∧
    ((handle_packet (fun _ => (.keep, .err [0x61])) [] (request_pack 1 (.int 0) [0xc0])).sent
        = [response_error_pack 1 [0x61]] ∧
      (handle_packet emptyHandler [(1, 2)] (response_error_pack 1 [0x61])).delivered
        = [(2, Response.error [0x61])]) :=
  ⟨by decide,
    C3_error_roundtrip emptyHandler [(1, 2)] 2 1 (.int 0) [0xc0] [0x61]
      (by norm_num) (by decide) (by decide) (by norm_num) rfl⟩

/-- C10 confirmed: every error-reply path — `Ret::error`, `AsyncRet::error`
and `handle_packet` synthesizing a reply for a handler `Err` — emits the one
`response_error` frame, and that frame is a 4-element Response array whose
elements decode as the tag 1, the request id, the error string, and exactly
MessagePack nil as the result. -/
theorem C10_error_reply_shape (reqId : Nat) (e : List Nat)
    (hid : reqId < 4294967296) (hel : e.length < 4294967296) :
    retApply (.replyError e) (some reqId) = ([response_error_pack reqId e], none) ∧
    asyncRet_error reqId e = response_error_pack reqId e ∧
    (handle_packet (fun _ => (.keep, .err e)) [] (request_pack reqId (.int 0) [0xc0])).sent
        = [response_error_pack reqId e] ∧
    response_error_pack reqId e
        = writeArrayLen 4 ++ writeU32 1 ++ writeU32 reqId ++ writeStr e ++ writeNil ∧
    readArrayLen (response_error_pack reqId e)
        = some (4, writeU32 1 ++ (writeU32 reqId ++ (writeStr e ++ writeNil))) ∧
    readValue (writeU32 1 ++ (writeU32 reqId ++ (writeStr e ++ writeNil)))
        = some (.int 1, writeU32 reqId ++ (writeStr e ++ writeNil)) ∧
    readValue (writeU32 reqId ++ (writeStr e ++ writeNil))
        = some (.int reqId, writeStr e ++ writeNil) ∧
    readValue (writeStr e ++ writeNil) = some (.str e, writeNil) ∧
    readValue writeNil = some (.nil, ([] : List Nat)) := by
  refine ⟨rfl, rfl, ?_, ?_, ?_, ?_, ?_, readValue_writeStr e writeNil hel, rfl⟩
  · rw [handle_packet_request_err (fun _ => (.keep, .err e)) [] reqId (.int 0) [0xc0] e hid
      (by decide) rfl]
    rfl
  · simp [response_error_pack, prepare_response, List.append_assoc]
  · simp only [response_error_pack, prepare_response, List.append_assoc]
    exact readArrayLen_write4 _
  · have h := readValue_writeU32 1 (writeU32 reqId ++ (writeStr e ++ writeNil))
    simpa using h
  · have h := readValue_writeU32 reqId (writeStr e ++ writeNil)
    rwa [Nat.mod_eq_of_lt hid] at h

theorem C10_error_reply_shape_witness :
    retApply (.replyError [0x78]) (some 2) = ([response_error_pack 2 [0x78]], none) ∧
    readValue (writeStr [0x78] ++ writeNil) = some (.str [0x78], writeNil) :=
  ⟨(C10_error_reply_shape 2 [0x78] (by norm_num) (by norm_num)).1,
    (C10_error_reply_shape 2 [0x78] (by norm_num) (by norm_num)).2.2.2.2.2.2.2.1⟩

end EasyRpc
